import Mathlib

/-!
Verification of the wayfinding analysis pipeline against its specification.

The development shallowly embeds the Python modules
`wes_calculator.py`, `space_syntax.py`, `vga_isovists.py` and
`agent_simulation.py` into Lean: floating-point arithmetic is modelled by
exact rationals (and reals where the source uses `sqrt`/`log`), Python
dictionaries by association lists in insertion order, raised exceptions by
`Except`, and the seeded global NumPy random generator by an explicit
generator state threaded through the computation.

Definitions come first, theorems afterwards.
-/

namespace Wayfinding

/-! ## WES calculator (`wes_calculator.py`) -/

/-- Embeds the dataclass `WESWeights` of `wes_calculator.py`: the seven
weighted dimensions of the WES formula, floats modelled as rationals. -/
structure WESWeights where
  time : ℚ
  detour : ℚ
  errors : ℚ
  hesitations : ℚ
  visual_integration : ℚ
  signage : ℚ
  accessibility : ℚ
deriving DecidableEq

/-- Default weights of `WESWeights` (its dataclass field defaults). -/
def defaultWeights : WESWeights := ⟨15, 10, 20, 10, 20, 15, 10⟩

/-- Embeds the seven metric keys of the normalized-metrics dictionary, in
the insertion order used by `_normalize_metrics`. -/
inductive Metric where
  | time
  | detour
  | errors
  | hesitations
  | visual_integration
  | signage
  | accessibility
deriving DecidableEq, Fintype

/-- Embeds the insertion order of the `normalized` dictionary built by
`_normalize_metrics`, which `_identify_improvement_priorities` iterates. -/
def metricOrder : List Metric :=
  [.time, .detour, .errors, .hesitations, .visual_integration, .signage,
   .accessibility]

/-- Embeds `getattr(self.weights, metric)`: the weight stored for a
metric key. -/
def weightOf (w : WESWeights) : Metric → ℚ
  | .time => w.time
  | .detour => w.detour
  | .errors => w.errors
  | .hesitations => w.hesitations
  | .visual_integration => w.visual_integration
  | .signage => w.signage
  | .accessibility => w.accessibility

/-- Total of the seven weights, as computed in `WESWeights.validate` and
`_normalize_weights`. -/
def wesTotal (w : WESWeights) : ℚ :=
  w.time + w.detour + w.errors + w.hesitations + w.visual_integration +
    w.signage + w.accessibility

/-- Embeds `WESWeights.validate`: `abs(total - 100.0) < 0.01`. -/
def validateWeights (w : WESWeights) : Bool :=
  decide (|wesTotal w - 100| < 1 / 100)

/-- Embeds `WESCalculator._normalize_weights`: each weight is replaced by
`(weight / total) * 100`.  In Python a zero total raises
`ZeroDivisionError`, modelled by `Except.error`. -/
def normalizeWeights (w : WESWeights) : Except String WESWeights :=
  if wesTotal w = 0 then
    .error "ZeroDivisionError: float division by zero"
  else
    .ok ⟨w.time / wesTotal w * 100, w.detour / wesTotal w * 100,
      w.errors / wesTotal w * 100, w.hesitations / wesTotal w * 100,
      w.visual_integration / wesTotal w * 100, w.signage / wesTotal w * 100,
      w.accessibility / wesTotal w * 100⟩

/-- Embeds `WESCalculator.__init__` restricted to its weight handling: if
`validate` fails the weights are renormalized, otherwise kept as given. -/
def wesCalculatorInit (w : WESWeights) : Except String WESWeights :=
  if validateWeights w then .ok w else normalizeWeights w

/-- Embeds `WESCalculator._compute_wes_score`: penalties `weight * (1 - n)`
for the four negative dimensions, bonuses `weight * n` for the three
positive ones, result clamped to `[0, 100]`. -/
def computeWesScore (w : WESWeights) (m : Metric → ℚ) : ℚ :=
  max 0 (min 100
    (100 -
      (w.time * (1 - m .time) + w.detour * (1 - m .detour) +
        w.errors * (1 - m .errors) + w.hesitations * (1 - m .hesitations)) +
      (w.visual_integration * m .visual_integration + w.signage * m .signage +
        w.accessibility * m .accessibility)))

/-- Embeds `WESCalculator._get_grade`: the letter-grade ladder on the
score. -/
def getGrade (s : ℚ) : String :=
  if s ≥ 90 then "A+"
  else if s ≥ 85 then "A"
  else if s ≥ 80 then "A-"
  else if s ≥ 75 then "B+"
  else if s ≥ 70 then "B"
  else if s ≥ 65 then "B-"
  else if s ≥ 60 then "C+"
  else if s ≥ 55 then "C"
  else if s ≥ 50 then "C-"
  else if s ≥ 45 then "D"
  else "F"

/-- Embeds one entry of the list built by
`_identify_improvement_priorities`. -/
structure PriorityEntry where
  metric : Metric
  current_normalized : ℚ
  improvement_potential : ℚ
  impact_on_wes : ℚ
  priority : String
deriving DecidableEq

/-- Embeds the label expression of `_identify_improvement_priorities`:
`HIGH` above impact 5, `MEDIUM` above 2, `LOW` otherwise. -/
def priorityLabel (impact : ℚ) : String :=
  if impact > 5 then "HIGH" else if impact > 2 then "MEDIUM" else "LOW"

/-- Comparison used to model `priorities.sort(key=..., reverse=True)`:
descending by `impact_on_wes`, stable like Python sort. -/
def priorityDesc (a b : PriorityEntry) : Bool :=
  decide (b.impact_on_wes ≤ a.impact_on_wes)

/-- Embeds `WESCalculator._identify_improvement_priorities`: dimensions
with normalized value at least `0.9` are skipped; otherwise the entry
carries `impact = (1 - value) * weight * 0.9` and its label; finally the
list is sorted by impact descending. -/
def identifyImprovementPriorities (w : WESWeights) (m : Metric → ℚ) :
    List PriorityEntry :=
  (metricOrder.filterMap (fun d =>
    if m d ≥ 9 / 10 then none
    else some ⟨d, m d, 1 - m d, (1 - m d) * weightOf w d * (9 / 10),
      priorityLabel ((1 - m d) * weightOf w d * (9 / 10))⟩)).mergeSort
    priorityDesc

/-- Concrete normalized-metric vector used as a test input: dimension
`time` at `0.5`, every other dimension at `1`. -/
def halfTimeMetrics : Metric → ℚ
  | .time => 1 / 2
  | _ => 1

/-! ## Space syntax (`space_syntax.py`) -/

/-- Embeds the movement network handed to `SpaceSyntaxAnalyzer`: an
undirected graph as a node list and an edge list. -/
structure SGraph where
  nodes : List String
  edges : List (String × String)

/-- Embeds the adjacency lookup on the undirected graph: every edge
incident to `v` contributes its other endpoint. -/
def neighborsOf (g : SGraph) (v : String) : List String :=
  g.edges.filterMap (fun e =>
    if e.1 = v then some e.2 else if e.2 = v then some e.1 else none)

/-- Breadth-first expansion with explicit fuel, modelling
`nx.single_source_shortest_path_length`: `acc` holds the discovered
nodes with their hop counts, `frontier` the nodes discovered at the
previous level, `d` the next level's depth. -/
def bfsAux (g : SGraph) : ℕ → List (String × ℕ) → List String → ℕ →
    List (String × ℕ)
  | 0, acc, _, _ => acc
  | fuel + 1, acc, frontier, d =>
    let next := ((frontier.flatMap (neighborsOf g)).filter
      (fun u => !((acc.map Prod.fst).contains u))).dedup
    match next with
    | [] => acc
    | _ => bfsAux g fuel (acc ++ next.map (fun u => (u, d))) next (d + 1)

/-- Embeds `nx.single_source_shortest_path_length(graph, v)`: hop counts
from `v` to every reachable node, the source itself included with
distance `0`. -/
def shortestLengths (g : SGraph) (v : String) : List (String × ℕ) :=
  bfsAux g g.nodes.length [(v, 0)] [v] 1

/-- Embeds `depths = list(lengths.values())` in `_calculate_integration`:
the multiset of hop counts from `v`, the `0` for `v` itself included. -/
def depthsFrom (g : SGraph) (v : String) : List ℕ :=
  (shortestLengths g v).map Prod.snd

/-- Embeds `SpaceSyntaxAnalyzer._get_dk_value`: `1` below 3 nodes, `k/3`
up to 10, `2*sqrt(k-1)` up to 100, `2*ln k` above. -/
noncomputable def dkValue (k : ℕ) : ℝ :=
  if k < 3 then 1
  else if k ≤ 10 then (k : ℝ) / 3
  else if k ≤ 100 then 2 * Real.sqrt ((k : ℝ) - 1)
  else 2 * Real.log (k : ℝ)

/-- Embeds the per-node body of
`SpaceSyntaxAnalyzer._calculate_integration` (the `weighted=False`
branch; with unit edge weights the weighted branch computes the same
lengths): mean depth over all recorded lengths, real asymmetry, relative
real asymmetry and its reciprocal, with the guards of the source. -/
noncomputable def integrationValue (g : SGraph) (v : String) : ℝ :=
  let k := g.nodes.length
  let ds := depthsFrom g v
  if 1 < ds.length then
    if 2 < k then
      let md : ℝ := (ds.sum : ℝ) / (ds.length : ℝ)
      let ra := 2 * (md - 1) / ((k : ℝ) - 2)
      let rra := if 0 < dkValue k then ra / dkValue k else ra
      if 0 < rra then 1 / rra else 0
    else 0
  else 0

/-- Modelled from the spec: the integration formula as claim C4 words it,
with MeanDepth the mean shortest-path length from the node to all OTHER
nodes (the self-distance `0` excluded from the averaging), for comparison
with `integrationValue`. -/
noncomputable def specIntegrationValue (g : SGraph) (v : String) : ℝ :=
  let k := g.nodes.length
  let ds := depthsFrom g v
  if k ≤ 2 then 0
  else
    let md : ℝ := (ds.sum : ℝ) / ((ds.length : ℝ) - 1)
    let ra := 2 * (md - 1) / ((k : ℝ) - 2)
    let rra := ra / dkValue k
    if rra = 0 then 0 else 1 / rra

/-- Concrete three-node path graph `A - B - C` used as a test input. -/
def pathGraphABC : SGraph := ⟨["A", "B", "C"], [("A", "B"), ("B", "C")]⟩

/-- Embeds one value of the `integration` dictionary produced by
`_calculate_integration` (floats as rationals). -/
structure IntegrationEntry where
  value : ℚ
  ra : ℚ
  rra : ℚ
  mean_depth : ℚ
deriving DecidableEq

/-- Embeds a Python subscript: either an integer index or a string key. -/
inductive PyKey where
  | int (i : ℤ)
  | str (s : String)

/-- Embeds subscripting a Python 2-tuple `(name, data)`: the integer
indices `0` and `1` (and their negative forms) succeed, while a string
key raises `TypeError` — which is what `identify_critical_nodes` does in
its integration sort key. -/
def tupleGetKey (t : String × IntegrationEntry) :
    PyKey → Except String (String ⊕ IntegrationEntry)
  | .int i =>
    if i = 0 ∨ i = -2 then .ok (.inl t.1)
    else if i = 1 ∨ i = -1 then .ok (.inr t.2)
    else .error "IndexError: tuple index out of range"
  | .str _ => .error "TypeError: tuple indices must be integers, not str"

/-- Embeds the integration sort key of `identify_critical_nodes`: each
item `x` handed to the key is the tuple `(node, data)`, and the key
subscripts it with the string `value`. -/
def integrationSortKey (x : String × IntegrationEntry) :
    Except String (String ⊕ IntegrationEntry) :=
  tupleGetKey x (.str "value")

/-- Embeds Python `sorted(l, key=key, reverse=True)` for a key function
that can raise: `sorted` evaluates the key on every element first, so any
raise aborts the sort.  The comparison `le` on computed keys is only
reached when every key evaluation succeeded. -/
def sortedByKeyE {α β : Type} (key : α → Except String β)
    (le : β → β → Bool) (l : List α) : Except String (List α) := do
  let keyed ← l.mapM (fun a => (key a).map (fun k => (a, k)))
  pure ((keyed.mergeSort (fun x y => le y.2 x.2)).map Prod.fst)

/-- Embeds Python `sorted(l, key=key, reverse=True)` for a total rational
key: stable descending sort. -/
def sortDescBy {α : Type} (key : α → ℚ) (l : List α) : List α :=
  l.mergeSort (fun x y => decide (key y ≤ key x))

/-- Embeds `self.metrics` as far as `identify_critical_nodes` reads it:
after `analyze`, the `betweenness`, `integration` and `degree`
dictionaries are all present. -/
structure SSMetrics where
  betweenness : List (String × ℚ)
  integration : List (String × IntegrationEntry)
  degree : List (String × ℕ)

/-- Embeds the result dictionary of `identify_critical_nodes`. -/
structure CriticalNodes where
  high_betweenness : List (String × ℚ)
  high_integration : List (String × ℚ)
  high_degree : List (String × ℕ)

/-- Embeds `SpaceSyntaxAnalyzer.identify_critical_nodes(top_n)`:
betweenness sorted descending by `x[1]`; integration sorted with the key
`x[\x22value\x22]` (which subscripts the `(node, data)` tuple with a
string and therefore raises `TypeError`); degree sorted descending by
`x[1]`; each list truncated to `top_n`. -/
def identifyCriticalNodes (metrics : SSMetrics) (top_n : ℕ) :
    Except String CriticalNodes := do
  let critBet := (sortDescBy Prod.snd metrics.betweenness).take top_n
  let sortedInteg ← sortedByKeyE integrationSortKey (fun _ _ => true)
    metrics.integration
  let critInteg := (sortedInteg.take top_n).map (fun p => (p.1, p.2.value))
  let critDeg := (sortDescBy (fun p => (p.2 : ℚ)) metrics.degree).take top_n
  pure ⟨critBet, critInteg, critDeg⟩

/-! ## Visibility graph analysis (`vga_isovists.py`) -/

/-- Embeds a sample point: a planar coordinate pair, floats as
rationals. -/
abbrev Point : Type := ℚ × ℚ

/-- Embeds a line segment (a two-point Shapely `LineString`): obstacles
and sight lines. -/
abbrev Seg : Type := Point × Point

/-- Squared Euclidean distance between two points; the source computes
`np.sqrt` of this and compares with the threshold `50`, which is
equivalent to comparing this square with `2500`. -/
def distSq (p q : Point) : ℚ :=
  (p.1 - q.1) ^ 2 + (p.2 - q.2) ^ 2

/-- Embeds `VisibilityAnalyzer._has_line_of_sight`: true when no obstacle
intersects the segment from `p` to `q`.  The Shapely predicate
`line.intersects(obstacle)` is kept abstract as the parameter
`intersects`. -/
def hasLineOfSight (intersects : Seg → Seg → Bool) (obstacles : List Seg)
    (p q : Point) : Bool :=
  obstacles.all (fun o => !(intersects (p, q) o))

/-- The nested edge loops of `_build_visibility_graph`: for each `p` in
the list, pair it with every later point that passes the check. -/
def visEdgesAux (check : Point → Point → Bool) : List Point →
    List (Point × Point)
  | [] => []
  | p :: rest =>
    (rest.filter (check p)).map (fun q => (p, q)) ++ visEdgesAux check rest

/-- Embeds `VisibilityAnalyzer._build_visibility_graph`: edges are built
among the first 500 points only (`points[:500]` and `points[i+1:500]`),
between pairs at distance strictly below 50 whose segment no obstacle
intersects. -/
def buildVisibilityGraph (intersects : Seg → Seg → Bool)
    (obstacles : List Seg) (points : List Point) : List (Point × Point) :=
  visEdgesAux
    (fun p q => decide (distSq p q < 50 ^ 2) &&
      hasLineOfSight intersects obstacles p q)
    (points.take 500)

/-- Embeds the node set of the visibility graph: every sample point is
added as a node before any edge is built. -/
def visibilityNodes (points : List Point) : List Point := points

/-- Embeds the numeric isovist properties stored by
`_calculate_isovists` (the fields `_calculate_vga_metrics` later reads;
the polygon itself is dropped). -/
structure IsovistEntry where
  area : ℚ
  perimeter : ℚ
  max_radial : ℚ
  mean_radial : ℚ
deriving DecidableEq

/-- Embeds `VisibilityAnalyzer._calculate_isovists`: the isovist
dictionary holds an entry for each of the first 1000 points
(`sample_points[:1000]`) and nothing else.  The geometric computation
per point — `_compute_isovist_polygon` and `_analyze_isovist`, with the
zero entry on an exception — is kept abstract as `props`. -/
def calcIsovists (props : Point → IsovistEntry) (points : List Point) :
    List (Point × IsovistEntry) :=
  (points.take 1000).map (fun p => (p, props p))

/-- Embeds `isovists.get(node, \x7b\x7d).get("area", 0)` in
`_calculate_vga_metrics`: the stored area, or `0` when the point has no
isovist entry. -/
def isovistAreaOf (isovists : List (Point × IsovistEntry)) (p : Point) : ℚ :=
  match isovists.lookup p with
  | some e => e.area
  | none => 0

/-- Embeds the per-node metrics record of `_calculate_vga_metrics`
(restricted to the fields the claims mention). -/
structure VgaEntry where
  visual_integration : ℚ
  visible_neighbors : ℕ
  isovist_area : ℚ
deriving DecidableEq

/-- Embeds the per-node body of `_calculate_vga_metrics`: with `nbrs` the
number of visibility-graph neighbors of `p`, visual integration is
`0.5 * nbrs + 0.5 * (area / 10000)`. -/
def vgaMetricsFor (nbrs : ℕ) (isovists : List (Point × IsovistEntry))
    (p : Point) : VgaEntry :=
  ⟨(1 / 2) * nbrs + (1 / 2) * (isovistAreaOf isovists p / 10000), nbrs,
    isovistAreaOf isovists p⟩

/-! ## Agent-based simulation (`agent_simulation.py`) -/

/-- Embeds the `AgentType` enumeration. -/
inductive AgentType where
  | familiar
  | first_time
  | elderly
  | mobility_impaired
deriving DecidableEq

/-- Embeds the state of the seeded global NumPy random generator.  The
concrete next-state function below is a deterministic stand-in (a linear
congruential generator); the determinism claims depend only on the stream
being a function of the state. -/
structure Rng where
  state : ℕ
deriving DecidableEq

/-- One step of the modelled generator. -/
def rngNext (r : Rng) : Rng :=
  ⟨(r.state * 1103515245 + 12345) % 2147483648⟩

/-- Embeds `np.random.random()`: a draw in `[0, 1)` together with the
advanced generator state. -/
def randFloat (r : Rng) : ℚ × Rng :=
  let r1 := rngNext r
  ((r1.state : ℚ) / 2147483648, r1)

/-- Embeds the weighted movement graph handed to `AgentSimulator`. -/
structure AgentGraph where
  nodes : List String
  edges : List (String × String × ℚ)

/-- Embeds `graph.neighbors(v)` on the undirected weighted graph. -/
def agNeighbors (g : AgentGraph) (v : String) : List String :=
  g.edges.filterMap (fun e =>
    if e.1 = v then some e.2.1
    else if e.2.1 = v then some e.1 else none)

/-- Embeds `graph.degree(node)`. -/
def agDegree (g : AgentGraph) (v : String) : ℕ :=
  (agNeighbors g v).length

/-- Embeds one step of `_calculate_path_length`: the weight of the edge
between consecutive path nodes, or `0` when either node or the edge is
absent. -/
def stepWeight (g : AgentGraph) (u v : String) : ℚ :=
  if u ∈ g.nodes ∧ v ∈ g.nodes then
    match g.edges.find? (fun e =>
      decide ((e.1 = u ∧ e.2.1 = v) ∨ (e.1 = v ∧ e.2.1 = u))) with
    | some e => e.2.2
    | none => 0
  else 0

/-- Embeds `AgentSimulator._calculate_path_length`. -/
def pathLength (g : AgentGraph) : List String → ℚ
  | u :: v :: rest => stepWeight g u v + pathLength g (v :: rest)
  | _ => 0

/-- Embeds the walking-speed table of `_estimate_travel_time`. -/
def walkingSpeed : AgentType → ℚ
  | .familiar => 14 / 10
  | .first_time => 1
  | .elderly => 8 / 10
  | .mobility_impaired => 6 / 10

/-- Embeds `AgentSimulator._estimate_travel_time`: distance over speed
plus 5 seconds per hesitation and 10 per error. -/
def estimateTravelTime (ty : AgentType) (dist : ℚ) (hes err : ℕ) : ℚ :=
  dist / walkingSpeed ty + hes * 5 + err * 10

/-- Embeds the base error-probability table of
`_get_error_probability`. -/
def baseErrorProb : AgentType → ℚ
  | .familiar => 1 / 20
  | .first_time => 1 / 4
  | .elderly => 7 / 20
  | .mobility_impaired => 3 / 10

/-- Embeds `AgentSimulator._get_error_probability`: the base probability,
scaled up at branching nodes, halved under signage, reduced at
landmarks, capped at `0.9`. -/
def errorProbability (g : AgentGraph) (sig lm : List String)
    (ty : AgentType) (node : String) : ℚ :=
  let p0 := baseErrorProb ty
  let p1 := if 4 ≤ agDegree g node then p0 * (3 / 2)
    else if 3 ≤ agDegree g node then p0 * (6 / 5) else p0
  let p2 := if node ∈ sig then p1 * (1 / 2) else p1
  let p3 := if node ∈ lm then p2 * (3 / 5) else p2
  min p3 (9 / 10)

/-- Embeds `AgentSimulator._signage_visible_at`. -/
def signageVisibleAt (sig : List String) (current nxt : String) : Bool :=
  decide (current ∈ sig) || decide (nxt ∈ sig)

/-- Embeds `np.random.choice(neighbors)`: a uniformly drawn index into a
list of size `n`, consuming one draw. -/
def chooseIndex (r : Rng) (n : ℕ) : ℕ × Rng :=
  let (q, r1) := randFloat r
  (min (Nat.floor (q * n)) (n - 1), r1)

/-- Embeds the agent-type draw of `_run_scenario`:
`np.random.choice([FIRST_TIME, FAMILIAR, ELDERLY, MOBILITY_IMPAIRED],
p=[0.6, 0.2, 0.15, 0.05])` via the cumulative distribution. -/
def chooseAgentType (r : Rng) : AgentType × Rng :=
  let (q, r1) := randFloat r
  (if q < 6 / 10 then .first_time
   else if q < 8 / 10 then .familiar
   else if q < 19 / 20 then .elderly
   else .mobility_impaired, r1)

/-- Embeds the loop of `AgentSimulator._apply_agent_strategy`: walking
the optimal path, each decision point may divert to a random neighbor
(counting an error), a wrong divert counts a hesitation and returns early
with a recomputed correction path (or without one when none exists);
otherwise the step is taken, counting a sign usage when signage is
visible.  The deterministic `nx.shortest_path` is the parameter `sp`
(`none` models `NetworkXNoPath`).  Arguments: remaining optimal path,
current node, accumulated path (reversed), errors, hesitations, sign
usages, generator state. -/
def applyAgentStrategy (g : AgentGraph) (sig lm : List String)
    (sp : String → String → Option (List String)) (ty : AgentType)
    (dest : String) :
    List String → String → List String → ℕ → ℕ → ℕ → Rng →
    List String × ℕ × ℕ × ℕ × Rng
  | [], _, acc, e, h, s, r => (acc.reverse, e, h, s, r)
  | nxt :: rest, current, acc, e, h, s, r =>
    let p := errorProbability g sig lm ty current
    let (q, r1) := randFloat r
    if q < p then
      match agNeighbors g current with
      | [] => applyAgentStrategy g sig lm sp ty dest rest current acc
          (e + 1) h s r1
      | nb :: nbs =>
        let (idx, r2) := chooseIndex r1 (nb :: nbs).length
        let wrong := (nb :: nbs).getD idx nb
        if wrong ≠ nxt then
          match sp wrong dest with
          | some cp => ((wrong :: acc).reverse ++ cp.drop 1, e + 1, h + 1, s, r2)
          | none => ((wrong :: acc).reverse, e + 1, h + 1, s, r2)
        else
          applyAgentStrategy g sig lm sp ty dest rest wrong (wrong :: acc)
            (e + 1) h s r2
    else
      let s1 := if signageVisibleAt sig current nxt then s + 1 else s
      applyAgentStrategy g sig lm sp ty dest rest nxt (nxt :: acc) e h s1 r1

/-- Embeds the per-agent outcome record (the mutated fields of the
`Agent` dataclass after `_simulate_agent_journey`). -/
structure AgentOutcome where
  id : String
  agent_type : AgentType
  path : Option (List String)
  errors : ℕ
  hesitations : ℕ
  sign_usages : ℕ
  distance_traveled : ℚ
  time_elapsed : ℚ
  success : Bool
deriving DecidableEq

/-- Embeds `AgentSimulator._simulate_agent_journey` for agent number `i`:
missing endpoints or a failed shortest path leave a failed agent with the
initial zero metrics; otherwise the strategy runs and distance, time and
success are derived from the actual path. -/
def simulateAgentJourney (g : AgentGraph) (sig lm : List String)
    (sp : String → String → Option (List String)) (i : ℕ) (ty : AgentType)
    (origin dest : String) (r : Rng) : AgentOutcome × Rng :=
  if origin ∈ g.nodes ∧ dest ∈ g.nodes then
    match sp origin dest with
    | some (o0 :: restPath) =>
      let res := applyAgentStrategy g sig lm sp ty dest restPath o0 [o0]
        0 0 0 r
      let dist := pathLength g res.1
      let t := estimateTravelTime ty dist res.2.2.1 res.2.1
      (⟨"agent_" ++ toString i, ty, some res.1, res.2.1, res.2.2.1,
        res.2.2.2.1, dist, t, decide (res.1.getLast? = some dest)⟩,
        res.2.2.2.2)
    | _ => (⟨"agent_" ++ toString i, ty, none, 0, 0, 0, 0, 0, false⟩, r)
  else (⟨"agent_" ++ toString i, ty, none, 0, 0, 0, 0, 0, false⟩, r)

/-- Embeds the agent loop of `AgentSimulator._run_scenario`: agent `i` is
given a drawn type and simulated, threading the generator state. -/
def runScenarioAux (g : AgentGraph) (sig lm : List String)
    (sp : String → String → Option (List String)) (origin dest : String) :
    ℕ → ℕ → Rng → List AgentOutcome × Rng
  | _, 0, r => ([], r)
  | i, n + 1, r =>
    let (ty, r1) := chooseAgentType r
    let (res, r2) := simulateAgentJourney g sig lm sp i ty origin dest r1
    let (others, r3) := runScenarioAux g sig lm sp origin dest (i + 1) n r2
    (res :: others, r3)

/-- Embeds `AgentSimulator._run_scenario(origin, destination, n_agents)`
as far as the per-agent outcomes: the list of agent results in order,
together with the final generator state. -/
def runScenario (g : AgentGraph) (sig lm : List String)
    (sp : String → String → Option (List String)) (origin dest : String)
    (n : ℕ) (r : Rng) : List AgentOutcome × Rng :=
  runScenarioAux g sig lm sp origin dest 0 n r

/-! ## Theorems -/

theorem mem_metricOrder (d : Metric) : d ∈ metricOrder := by
  cases d <;> simp [metricOrder]

theorem priorityDesc_trans (a b c : PriorityEntry)
    (h1 : priorityDesc a b = true) (h2 : priorityDesc b c = true) :
    priorityDesc a c = true := by
  simp only [priorityDesc, decide_eq_true_eq] at h1 h2 ⊢
  exact h2.trans h1

theorem priorityDesc_total (a b : PriorityEntry) :
    (priorityDesc a b || priorityDesc b a) = true := by
  simp only [priorityDesc, Bool.or_eq_true, decide_eq_true_eq]
  exact le_total b.impact_on_wes a.impact_on_wes

theorem dkValue_pos (k : ℕ) : 0 < dkValue k := by
  unfold dkValue
  split_ifs with h1 h2 h3
  · norm_num
  · have hk : (3 : ℝ) ≤ (k : ℝ) := by exact_mod_cast not_lt.1 h1
    positivity
  · have hk : (3 : ℕ) ≤ k := not_lt.1 h1
    have h1k : (1 : ℝ) < (k : ℝ) := by
      exact_mod_cast lt_of_lt_of_le (by norm_num) hk
    have : 0 < Real.sqrt ((k : ℝ) - 1) := Real.sqrt_pos.2 (by linarith)
    linarith
  · have hk : 100 < k := not_le.1 h3
    have h1k : (1 : ℝ) < (k : ℝ) := by
      exact_mod_cast lt_of_le_of_lt (by norm_num) hk
    have := Real.log_pos h1k
    linarith

/-- Claim C2: whenever the computed metrics are non-empty (the
`integration` dictionary has at least one node), `identify_critical_nodes`
raises `TypeError`, because its integration sort key subscripts the
`(node, data)` tuple with the string `value`; it never returns the three
ranked lists the claim (and the surrounding code) intends. -/
theorem c2_critical_nodes_raises (metrics : SSMetrics) (top_n : ℕ)
    (h : metrics.integration ≠ []) :
    identifyCriticalNodes metrics top_n =
      .error "TypeError: tuple indices must be integers, not str" := by
  obtain ⟨bet, integ, deg⟩ := metrics
  cases integ with
  | nil => exact absurd rfl h
  | cons a l => rfl

/-- Witness for `c2_critical_nodes_raises`: the metrics of a one-node
analysis already make `identify_critical_nodes` raise. -/
theorem c2_critical_nodes_raises_witness :
    (⟨[("A", 0)], [("A", ⟨0, 0, 0, 0⟩)], [("A", 1)]⟩ : SSMetrics).integration
      ≠ [] ∧
    identifyCriticalNodes ⟨[("A", 0)], [("A", ⟨0, 0, 0, 0⟩)], [("A", 1)]⟩ 10 =
      .error "TypeError: tuple indices must be integers, not str" :=
  ⟨by decide, c2_critical_nodes_raises _ 10 (by decide)⟩

/-- Claim C4, counterexample: on the path graph `A - B - C` at node `A`
the code computes integration `0` (its MeanDepth averages the recorded
lengths `[0, 1, 2]` including the self-distance, giving `1`, hence zero
asymmetry), while the formula of the claim — MeanDepth averaged over the
other nodes only, `3/2` — gives integration `1`. -/
theorem c4_counterexample :
    integrationValue pathGraphABC "A" = 0 ∧
    specIntegrationValue pathGraphABC "A" = 1 := by
  have hd : depthsFrom pathGraphABC "A" = [0, 1, 2] := by rfl
  have hk : pathGraphABC.nodes.length = 3 := rfl
  constructor
  · simp only [integrationValue, hd, hk]
    norm_num [dkValue]
  · simp only [specIntegrationValue, hd, hk]
    norm_num [dkValue]

/-- Claim C4, amended: for a graph with more than 2 nodes and a node
reaching at least one other node, the integration computation uses
MeanDepth equal to the mean of ALL recorded shortest-path lengths from
the node (the self-distance 0 included, so the sum over the other nodes
divided by k rather than k - 1), RealAsymmetry `2(MD - 1)/(k - 2)`,
RelativeRealAsymmetry `RA / D_k` (the `D_k > 0` guard always holds, as
the first conjunct states), and Integration `1/RRA` when `RRA > 0` and
`0` otherwise. -/
theorem c4_amended (g : SGraph) (v : String)
    (hk : 2 < g.nodes.length) (hd : 1 < (depthsFrom g v).length) :
    0 < dkValue g.nodes.length ∧
    integrationValue g v =
      (if 0 < 2 * (((depthsFrom g v).sum : ℝ) /
            ((depthsFrom g v).length : ℝ) - 1) /
            ((g.nodes.length : ℝ) - 2) / dkValue g.nodes.length then
        1 / (2 * (((depthsFrom g v).sum : ℝ) /
            ((depthsFrom g v).length : ℝ) - 1) /
            ((g.nodes.length : ℝ) - 2) / dkValue g.nodes.length)
      else 0) := by
  refine ⟨dkValue_pos _, ?_⟩
  simp only [integrationValue]
  rw [if_pos hd, if_pos hk, if_pos (dkValue_pos g.nodes.length)]

/-- Witness for `c4_amended` on the path graph `A - B - C` at node
`A`. -/
theorem c4_amended_witness :
    (2 < pathGraphABC.nodes.length) ∧
    (1 < (depthsFrom pathGraphABC "A").length) ∧
    (0 < dkValue pathGraphABC.nodes.length ∧
    integrationValue pathGraphABC "A" =
      (if 0 < 2 * (((depthsFrom pathGraphABC "A").sum : ℝ) /
            ((depthsFrom pathGraphABC "A").length : ℝ) - 1) /
            ((pathGraphABC.nodes.length : ℝ) - 2) /
            dkValue pathGraphABC.nodes.length then
        1 / (2 * (((depthsFrom pathGraphABC "A").sum : ℝ) /
            ((depthsFrom pathGraphABC "A").length : ℝ) - 1) /
            ((pathGraphABC.nodes.length : ℝ) - 2) /
            dkValue pathGraphABC.nodes.length)
      else 0)) :=
  ⟨by decide, by decide, c4_amended pathGraphABC "A" (by decide) (by decide)⟩

/-- Claim C5: the integration value computed by
`_calculate_integration` is non-negative for every graph and every node —
in particular for every connected graph with more than 2 nodes.  In this
real-valued model every value is moreover a finite real: the division
`1/RRA` is guarded by `RRA > 0`. -/
theorem c5_integration_nonneg (g : SGraph) (v : String) :
    0 ≤ integrationValue g v := by
  simp only [integrationValue]
  split_ifs <;>
    first
      | (apply le_of_lt; apply one_div_pos.2; assumption)
      | norm_num

theorem visEdgesAux_mem (check : Point → Point → Bool) (l : List Point)
    (p q : Point) (h : (p, q) ∈ visEdgesAux check l) :
    p ∈ l ∧ q ∈ l ∧ check p q = true := by
  induction l with
  | nil => simp [visEdgesAux] at h
  | cons a t ih =>
    simp only [visEdgesAux, List.mem_append] at h
    rcases h with h | h
    · obtain ⟨q1, hq1, heq⟩ := List.mem_map.1 h
      obtain ⟨hq1t, hcheck⟩ := List.mem_filter.1 hq1
      injection heq with hh1 hh2
      subst hh1; subst hh2
      exact ⟨List.mem_cons_self a t, List.mem_cons_of_mem a hq1t, hcheck⟩
    · obtain ⟨h1, h2, h3⟩ := ih h
      exact ⟨List.mem_cons_of_mem a h1, List.mem_cons_of_mem a h2, h3⟩

/-- Claim C7: an edge `(p, q)` of the visibility graph only connects
points among the first 500 of the sample list, at Euclidean distance
strictly below the threshold 50, whose segment no obstacle intersects
(for the abstract Shapely intersection predicate). -/
theorem c7_visibility_edges (intersects : Seg → Seg → Bool)
    (obstacles : List Seg) (points : List Point) (p q : Point)
    (h : (p, q) ∈ buildVisibilityGraph intersects obstacles points) :
    p ∈ points.take 500 ∧ q ∈ points.take 500 ∧
    Real.sqrt ((distSq p q : ℚ) : ℝ) < 50 ∧
    ∀ o ∈ obstacles, intersects (p, q) o = false := by
  obtain ⟨h1, h2, h3⟩ := visEdgesAux_mem _ _ _ _ h
  rw [Bool.and_eq_true] at h3
  obtain ⟨hdist, hlos⟩ := h3
  refine ⟨h1, h2, ?_, ?_⟩
  · have hq : distSq p q < 50 ^ 2 := of_decide_eq_true hdist
    have hr : ((distSq p q : ℚ) : ℝ) < 50 ^ 2 := by exact_mod_cast hq
    exact (Real.sqrt_lt' (by norm_num)).2 hr
  · intro o ho
    have := List.all_eq_true.1 hlos o ho
    simpa using this

/-- Witness for `c7_visibility_edges`: with no obstacles, the two points
`(0,0)` and `(3,4)` (distance 5) are connected, and the conclusion holds
for that edge. -/
theorem c7_visibility_edges_witness :
    ((((0, 0) : Point), ((3, 4) : Point)) ∈
      buildVisibilityGraph (fun _ _ => false) []
        [((0, 0) : Point), ((3, 4) : Point)]) ∧
    (((0, 0) : Point) ∈ ([((0, 0) : Point), ((3, 4) : Point)]).take 500 ∧
     ((3, 4) : Point) ∈ ([((0, 0) : Point), ((3, 4) : Point)]).take 500 ∧
     Real.sqrt ((distSq ((0, 0) : Point) ((3, 4) : Point) : ℚ) : ℝ) < 50 ∧
     ∀ o ∈ ([] : List Seg),
       (fun _ _ => false) ((((0, 0) : Point), ((3, 4) : Point)) : Seg) o
         = false) := by
  have hmem : ((((0, 0) : Point), ((3, 4) : Point)) ∈
      buildVisibilityGraph (fun _ _ => false) []
        [((0, 0) : Point), ((3, 4) : Point)]) := by
    simp only [buildVisibilityGraph, List.take, visEdgesAux,
      hasLineOfSight, List.all_nil, List.filter, distSq]
    norm_num
  exact ⟨hmem, c7_visibility_edges (fun _ _ => false) [] _ _ _ hmem⟩

theorem lookup_replicate_self (n : ℕ) (k : Point) (v : IsovistEntry)
    (hn : n ≠ 0) :
    (List.replicate n (k, v)).lookup k = some v := by
  cases n with
  | zero => exact absurd rfl hn
  | succ m =>
    rw [List.replicate_succ]
    simp [List.lookup]

theorem lookup_map_props_eq_none (props : Point → IsovistEntry)
    (l : List Point) (p : Point) (hp : p ∉ l) :
    (l.map (fun x => (x, props x))).lookup p = none := by
  induction l with
  | nil => rfl
  | cons a t ih =>
    have hne : p ≠ a := fun e => hp (e ▸ List.mem_cons_self a t)
    have ht : p ∉ t := fun hm => hp (List.mem_cons_of_mem a hm)
    simp only [List.map_cons, List.lookup]
    rw [beq_eq_false_iff_ne.2 hne]
    exact ih ht

/-- Claim C10, counterexample: the isovist dictionary is keyed by
coordinates, so a sample point occurring beyond the first 1000 positions
can still carry an isovist entry when the same coordinate also occurs
among the first 1000 — here the 1001st element of a constant list. -/
theorem c10_counterexample :
    ((0, 0) : Point) ∈ (List.replicate 1001 ((0, 0) : Point)).drop 1000 ∧
    (calcIsovists (fun _ => ⟨5, 6, 7, 8⟩)
      (List.replicate 1001 ((0, 0) : Point))).lookup ((0, 0) : Point) ≠
      none := by
  constructor
  · rw [List.drop_replicate]
    exact List.mem_replicate.2 ⟨by norm_num, rfl⟩
  · unfold calcIsovists
    rw [List.take_replicate, List.map_replicate,
      lookup_replicate_self _ _ _ (by norm_num)]
    exact Option.some_ne_none _

/-- Claim C10, amended: a sample point beyond the first 1000 positions
that does not also occur among the first 1000 receives no isovist entry,
remains a node of the visibility graph, and its VGA metrics fall back to
isovist area 0 with visual integration `0.5 * neighbors`. -/
theorem c10_amended (props : Point → IsovistEntry) (points : List Point)
    (p : Point) (nbrs : ℕ)
    (h1 : p ∈ points.drop 1000) (h2 : p ∉ points.take 1000) :
    p ∈ visibilityNodes points ∧
    (calcIsovists props points).lookup p = none ∧
    vgaMetricsFor nbrs (calcIsovists props points) p =
      ⟨(1 / 2) * nbrs, nbrs, 0⟩ := by
  have hnodes : p ∈ points := List.drop_subset 1000 points h1
  have hnone := lookup_map_props_eq_none props (points.take 1000) p h2
  refine ⟨hnodes, hnone, ?_⟩
  simp only [vgaMetricsFor, isovistAreaOf, calcIsovists, hnone]
  simp only [VgaEntry.mk.injEq]
  norm_num

/-- Witness for `c10_amended`: in a list of 1000 copies of `(0,0)`
followed by `(1,1)`, the point `(1,1)` sits beyond the first 1000, is
not among them, and gets the fallback metrics. -/
theorem c10_amended_witness :
    (((1, 1) : Point) ∈
      (List.replicate 1000 ((0, 0) : Point) ++
        [((1, 1) : Point)]).drop 1000) ∧
    (((1, 1) : Point) ∉
      (List.replicate 1000 ((0, 0) : Point) ++
        [((1, 1) : Point)]).take 1000) ∧
    (((1, 1) : Point) ∈ visibilityNodes
        (List.replicate 1000 ((0, 0) : Point) ++ [((1, 1) : Point)]) ∧
    (calcIsovists (fun _ => ⟨5, 6, 7, 8⟩)
      (List.replicate 1000 ((0, 0) : Point) ++ [((1, 1) : Point)])).lookup
      ((1, 1) : Point) = none ∧
    vgaMetricsFor 3 (calcIsovists (fun _ => ⟨5, 6, 7, 8⟩)
      (List.replicate 1000 ((0, 0) : Point) ++ [((1, 1) : Point)]))
      ((1, 1) : Point) = ⟨(1 / 2) * 3, 3, 0⟩) := by
  have hd : (List.replicate 1000 ((0, 0) : Point) ++
      [((1, 1) : Point)]).drop 1000 = [((1, 1) : Point)] :=
    List.drop_left' (by rw [List.length_replicate])
  have ht : (List.replicate 1000 ((0, 0) : Point) ++
      [((1, 1) : Point)]).take 1000 = List.replicate 1000 ((0, 0) : Point) :=
    List.take_left' (by rw [List.length_replicate])
  have h1 : ((1, 1) : Point) ∈
      (List.replicate 1000 ((0, 0) : Point) ++
        [((1, 1) : Point)]).drop 1000 := by
    rw [hd]; exact List.mem_singleton.2 rfl
  have h2 : ((1, 1) : Point) ∉
      (List.replicate 1000 ((0, 0) : Point) ++
        [((1, 1) : Point)]).take 1000 := by
    rw [ht]
    intro hm
    have h := (List.mem_replicate.1 hm).2
    have h1q : (1 : ℚ) = 0 := congrArg Prod.fst h
    norm_num at h1q
  exact ⟨h1, h2, c10_amended _ _ _ 3 h1 h2⟩

/-- Claim C9: the per-agent outcomes of a scenario run are a function of
the graph, the scenario endpoints, the signage and landmark lists, the
(deterministic) shortest-path oracle, the agent count and the random
generator state alone — so two runs from the same seed state produce
identical outcomes.  All three randomness sources of the module (the
agent-type draw, the wrong-turn draw and the neighbor choice) are drawn
from the single threaded generator. -/
theorem c9_deterministic (g : AgentGraph) (sig lm : List String)
    (sp : String → String → Option (List String)) (origin dest : String)
    (n : ℕ) (r1 r2 : Rng) (h : r1 = r2) :
    runScenario g sig lm sp origin dest n r1 =
      runScenario g sig lm sp origin dest n r2 := by
  rw [h]

/-- Witness for `c9_deterministic` on a concrete three-node scenario with
seed state 42. -/
theorem c9_deterministic_witness :
    (⟨42⟩ : Rng) = ⟨42⟩ ∧
    runScenario ⟨["A", "B", "C"], [("A", "B", 1), ("B", "C", 1)]⟩ ["B"] []
      (fun _ _ => some ["A", "B", "C"]) "A" "C" 3 ⟨42⟩ =
    runScenario ⟨["A", "B", "C"], [("A", "B", 1), ("B", "C", 1)]⟩ ["B"] []
      (fun _ _ => some ["A", "B", "C"]) "A" "C" 3 ⟨42⟩ :=
  ⟨rfl, c9_deterministic _ _ _ _ _ _ _ _ _ rfl⟩

/-- Claim C1, counterexample: with the default weights, the WES score of
the all-zero normalized-metric vector is not `0` and its grade is not
`"F"` (the code yields `100 - (15 + 10 + 20 + 10) = 45`, grade `"D"`). -/
theorem c1_counterexample :
    computeWesScore defaultWeights (fun _ => 0) ≠ 0 ∧
    getGrade (computeWesScore defaultWeights (fun _ => 0)) ≠ "F" := by
  constructor
  · norm_num [computeWesScore, defaultWeights, getGrade]
  · norm_num [computeWesScore, defaultWeights, getGrade]
    decide

/-- Claim C1, amended: with the default weights, all seven normalized
metrics equal to `1.0` give score `100.0` and grade `"A+"`, while all
equal to `0.0` give score `45.0` and grade `"D"`. -/
theorem c1_amended :
    computeWesScore defaultWeights (fun _ => 1) = 100 ∧
    getGrade (computeWesScore defaultWeights (fun _ => 1)) = "A+" ∧
    computeWesScore defaultWeights (fun _ => 0) = 45 ∧
    getGrade (computeWesScore defaultWeights (fun _ => 0)) = "D" := by
  refine ⟨?_, ?_, ?_, ?_⟩ <;>
    norm_num [computeWesScore, defaultWeights, getGrade]

/-- Claim C3, counterexample: with dimension `time` at normalized value
`0.5` (all others excellent), the single improvement-priority entry
carries impact `(1 - 0.5) * 15 * 0.9 = 6.75`, which differs from the
impact `(0.9 - 0.5) * 15 = 6` demanded by the claim. -/
theorem c3_counterexample :
    identifyImprovementPriorities defaultWeights halfTimeMetrics =
      [⟨.time, 1 / 2, 1 / 2, 27 / 4, "HIGH"⟩] ∧
    (27 / 4 : ℚ) ≠ (9 / 10 - 1 / 2) * 15 := by
  constructor
  · norm_num [identifyImprovementPriorities, metricOrder, weightOf,
      defaultWeights, priorityLabel, halfTimeMetrics, List.filterMap_cons,
      List.filterMap_nil, List.mergeSort_singleton]
  · norm_num

/-- Claim C3, amended: every dimension whose normalized value is below
`0.9` appears in the improvement-priorities list with impact
`(1 - current) * weight * 0.9`; every entry of the list stems from such a
dimension, carries that impact and the label `HIGH` above impact 5,
`MEDIUM` above 2, `LOW` otherwise; dimensions at or above `0.9` are
excluded, and the list is sorted by impact in descending order. -/
theorem c3_amended (w : WESWeights) (m : Metric → ℚ) :
    (∀ d : Metric, m d < 9 / 10 →
      (⟨d, m d, 1 - m d, (1 - m d) * weightOf w d * (9 / 10),
        priorityLabel ((1 - m d) * weightOf w d * (9 / 10))⟩ : PriorityEntry) ∈
        identifyImprovementPriorities w m) ∧
    (∀ e ∈ identifyImprovementPriorities w m,
      m e.metric < 9 / 10 ∧
      e.impact_on_wes = (1 - m e.metric) * weightOf w e.metric * (9 / 10) ∧
      e.priority = priorityLabel e.impact_on_wes) ∧
    List.Pairwise (fun a b => b.impact_on_wes ≤ a.impact_on_wes)
      (identifyImprovementPriorities w m) := by
  refine ⟨?_, ?_, ?_⟩
  · intro d hd
    unfold identifyImprovementPriorities
    rw [List.mem_mergeSort]
    exact List.mem_filterMap.2 ⟨d, mem_metricOrder d, by
      rw [if_neg (not_le.2 hd)]⟩
  · intro e he
    unfold identifyImprovementPriorities at he
    rw [List.mem_mergeSort] at he
    obtain ⟨d, _, hfd⟩ := List.mem_filterMap.1 he
    by_cases hc : m d ≥ 9 / 10
    · rw [if_pos hc] at hfd
      exact absurd hfd (by simp)
    · rw [if_neg hc] at hfd
      obtain rfl := Option.some_injective _ hfd
      exact ⟨not_le.1 hc, rfl, rfl⟩
  · have h := List.sorted_mergeSort priorityDesc_trans priorityDesc_total
      (metricOrder.filterMap (fun d =>
        if m d ≥ 9 / 10 then none
        else some ⟨d, m d, 1 - m d, (1 - m d) * weightOf w d * (9 / 10),
          priorityLabel ((1 - m d) * weightOf w d * (9 / 10))⟩))
    exact h.imp (by intro a b hab; simpa [priorityDesc] using hab)

/-- Witness for `c3_amended` at the concrete input `halfTimeMetrics`: the
dimension `time` sits below `0.9` and its entry is in the list. -/
theorem c3_amended_witness :
    (halfTimeMetrics .time < 9 / 10) ∧
    (⟨Metric.time, halfTimeMetrics .time, 1 - halfTimeMetrics .time,
      (1 - halfTimeMetrics .time) * weightOf defaultWeights .time * (9 / 10),
      priorityLabel ((1 - halfTimeMetrics .time) *
        weightOf defaultWeights .time * (9 / 10))⟩ : PriorityEntry) ∈
      identifyImprovementPriorities defaultWeights halfTimeMetrics := by
  exact ⟨by norm_num [halfTimeMetrics],
    (c3_amended defaultWeights halfTimeMetrics).1 .time
      (by norm_num [halfTimeMetrics])⟩

/-- Claim C6: when two normalized-metric vectors agree everywhere except
in one dimension, where the second is at least the first, the WES score
of the second is at least the WES score of the first — for any weight
configuration with nonnegative weights (the default configuration is
one). -/
theorem c6_monotonic (w : WESWeights) (m m' : Metric → ℚ) (d : Metric)
    (hw : ∀ e, 0 ≤ weightOf w e)
    (hne : ∀ e, e ≠ d → m e = m' e) (hle : m d ≤ m' d) :
    computeWesScore w m ≤ computeWesScore w m' := by
  have hall : ∀ e, m e ≤ m' e := by
    intro e
    by_cases h : e = d
    · subst h; exact hle
    · exact le_of_eq (hne e h)
  have key : (100 : ℚ) -
      (w.time * (1 - m .time) + w.detour * (1 - m .detour) +
        w.errors * (1 - m .errors) + w.hesitations * (1 - m .hesitations)) +
      (w.visual_integration * m .visual_integration + w.signage * m .signage +
        w.accessibility * m .accessibility) ≤
      (100 : ℚ) -
      (w.time * (1 - m' .time) + w.detour * (1 - m' .detour) +
        w.errors * (1 - m' .errors) + w.hesitations * (1 - m' .hesitations)) +
      (w.visual_integration * m' .visual_integration + w.signage * m' .signage +
        w.accessibility * m' .accessibility) := by
    have h1 := mul_le_mul_of_nonneg_left (hall .time) (hw .time)
    have h2 := mul_le_mul_of_nonneg_left (hall .detour) (hw .detour)
    have h3 := mul_le_mul_of_nonneg_left (hall .errors) (hw .errors)
    have h4 := mul_le_mul_of_nonneg_left (hall .hesitations) (hw .hesitations)
    have h5 := mul_le_mul_of_nonneg_left (hall .visual_integration)
      (hw .visual_integration)
    have h6 := mul_le_mul_of_nonneg_left (hall .signage) (hw .signage)
    have h7 := mul_le_mul_of_nonneg_left (hall .accessibility)
      (hw .accessibility)
    simp only [weightOf] at h1 h2 h3 h4 h5 h6 h7
    nlinarith
  exact max_le_max le_rfl (min_le_min le_rfl key)

/-- Witness for `c6_monotonic`: raising the `time` dimension from `0.5`
to `1` under the default weights does not decrease the score. -/
theorem c6_monotonic_witness :
    (∀ e : Metric, 0 ≤ weightOf defaultWeights e) ∧
    (∀ e : Metric, e ≠ Metric.time → halfTimeMetrics e = (fun _ => 1) e) ∧
    halfTimeMetrics .time ≤ (fun _ => (1 : ℚ)) Metric.time ∧
    computeWesScore defaultWeights halfTimeMetrics ≤
      computeWesScore defaultWeights (fun _ => 1) := by
  refine ⟨by decide, ?_, by norm_num [halfTimeMetrics], ?_⟩
  · intro e he
    cases e <;> simp [halfTimeMetrics] at he ⊢
  · exact c6_monotonic defaultWeights halfTimeMetrics (fun _ => 1) .time
      (by decide)
      (by intro e he; cases e <;> simp [halfTimeMetrics] at he ⊢)
      (by norm_num [halfTimeMetrics])

/-- Claim C8, counterexample: constructing the calculator with all seven
weights zero raises `ZeroDivisionError` inside `_normalize_weights`, so
construction with weights whose sum differs from 100 can raise. -/
theorem c8_counterexample :
    wesCalculatorInit ⟨0, 0, 0, 0, 0, 0, 0⟩ =
      .error "ZeroDivisionError: float division by zero" := by
  norm_num [wesCalculatorInit, validateWeights, wesTotal, normalizeWeights]

/-- Claim C8, amended: when the seven weights have nonzero sum differing
from 100 by at least `0.01`, construction does not raise, and afterwards
the stored weights sum to exactly 100, each weight scaled by
`100 / total`. -/
theorem c8_amended (w : WESWeights) (h0 : wesTotal w ≠ 0)
    (hv : validateWeights w = false) :
    ∃ w', wesCalculatorInit w = .ok w' ∧ wesTotal w' = 100 ∧
      w'.time = w.time / wesTotal w * 100 ∧
      w'.detour = w.detour / wesTotal w * 100 ∧
      w'.errors = w.errors / wesTotal w * 100 ∧
      w'.hesitations = w.hesitations / wesTotal w * 100 ∧
      w'.visual_integration = w.visual_integration / wesTotal w * 100 ∧
      w'.signage = w.signage / wesTotal w * 100 ∧
      w'.accessibility = w.accessibility / wesTotal w * 100 := by
  refine ⟨⟨w.time / wesTotal w * 100, w.detour / wesTotal w * 100,
    w.errors / wesTotal w * 100, w.hesitations / wesTotal w * 100,
    w.visual_integration / wesTotal w * 100, w.signage / wesTotal w * 100,
    w.accessibility / wesTotal w * 100⟩, ?_, ?_, rfl, rfl, rfl, rfl, rfl, rfl,
    rfl⟩
  · simp [wesCalculatorInit, hv, normalizeWeights, h0]
  · show _ + _ + _ + _ + _ + _ + _ = (100 : ℚ)
    have h := h0
    field_simp
    simp only [wesTotal] at h ⊢
    ring

/-- Witness for `c8_amended`: seven weights of 10 (total 70) are
renormalized to weights of `100/7` each, summing to 100. -/
theorem c8_amended_witness :
    wesTotal ⟨10, 10, 10, 10, 10, 10, 10⟩ ≠ 0 ∧
    validateWeights ⟨10, 10, 10, 10, 10, 10, 10⟩ = false ∧
    (∃ w', wesCalculatorInit ⟨10, 10, 10, 10, 10, 10, 10⟩ = .ok w' ∧
      wesTotal w' = 100 ∧
      w'.time = (10 : ℚ) / wesTotal ⟨10, 10, 10, 10, 10, 10, 10⟩ * 100 ∧
      w'.detour = (10 : ℚ) / wesTotal ⟨10, 10, 10, 10, 10, 10, 10⟩ * 100 ∧
      w'.errors = (10 : ℚ) / wesTotal ⟨10, 10, 10, 10, 10, 10, 10⟩ * 100 ∧
      w'.hesitations = (10 : ℚ) / wesTotal ⟨10, 10, 10, 10, 10, 10, 10⟩ * 100 ∧
      w'.visual_integration =
        (10 : ℚ) / wesTotal ⟨10, 10, 10, 10, 10, 10, 10⟩ * 100 ∧
      w'.signage = (10 : ℚ) / wesTotal ⟨10, 10, 10, 10, 10, 10, 10⟩ * 100 ∧
      w'.accessibility =
        (10 : ℚ) / wesTotal ⟨10, 10, 10, 10, 10, 10, 10⟩ * 100) := by
  refine ⟨by norm_num [wesTotal], by norm_num [validateWeights, wesTotal], ?_⟩
  exact c8_amended ⟨10, 10, 10, 10, 10, 10, 10⟩ (by norm_num [wesTotal])
    (by norm_num [validateWeights, wesTotal])

end Wayfinding
